import Mathlib

/-!
Shallow embedding of `src/acme_plot/plot.py` (`plot_column`) and proofs of
the specification's claims about it.

The dataset is modelled as a list of rows over named columns; the structural
output of a render call (layout choice, panels/lines, titles, labels, hidden
panel slots, warning diagnostics) is captured in explicit record types, and
the Python failure modes (`ValueError`, `ZeroDivisionError`, `NameError`)
become constructors of an error type.
-/

namespace AcmePlot

/-- A dataset row: an association list from column names to cell values. -/
abbrev Row := List (String × String)

/-- Cell lookup by column name (first binding wins), `""` if absent. -/
def Row.cell (r : Row) (c : String) : String :=
  match r.find? (fun p => p.1 == c) with
  | some p => p.2
  | none => ""

/-- A table-like dataset: declared columns plus rows. -/
structure DataFrame where
  cols : List String
  rows : List Row
deriving DecidableEq, Repr

/-- Distinct values of a list in order of first appearance; models
`pandas.Series.unique`, which returns uniques in order of appearance. -/
def uniqueStable : List String → List String
  | [] => []
  | x :: xs => x :: (uniqueStable xs).filter (fun y => y != x)

/-- The values of column `c`, in row order; models `df[c]`. -/
def columnValues (df : DataFrame) (c : String) : List String :=
  df.rows.map (fun r => Row.cell r c)

/-- `df[symbol_column].unique()`: the distinct group values in
first-encountered order. -/
def symbolsOf (df : DataFrame) (symbol_column : String) : List String :=
  uniqueStable (columnValues df symbol_column)

/-- `df.query(f"{symbol_column} == @symbol")`: the rows whose group column
equals `symbol`, in row order. -/
def matchingRows (df : DataFrame) (symbol_column symbol : String) : List Row :=
  df.rows.filter (fun r => Row.cell r symbol_column == symbol)

/-- One subplot panel of the grid layout, as drawn by the per-symbol loop. -/
structure Panel where
  title : String
  xdata : List String
  ydata : List String
  kwargs : List (String × String)
  xlabel : String
  ylabel : String
  gridOn : Bool
  tickRot : Nat
deriving DecidableEq, Repr

/-- One labeled line of the combined layout. -/
structure Line where
  label : String
  xdata : List String
  ydata : List String
  kwargs : List (String × String)
deriving DecidableEq, Repr

/-- Structural content of the grid (subplot) figure. -/
structure GridFigure where
  nRows : Nat
  nCols : Nat
  axesLen : Nat
  panels : List Panel
  hidden : List Nat
  suptitle : String
deriving DecidableEq, Repr

/-- Structural content of the combined (single-axes) figure. -/
structure CombinedFigure where
  lines : List Line
  title : String
  xlabel : String
  ylabel : String
  gridOn : Bool
  legendLabels : List String
  legendOutside : Bool
  tickRot : Nat
deriving DecidableEq, Repr

/-- The structural output of a successful `plot_column` call. -/
inductive PlotOutput where
  | grid (g : GridFigure)
  | combined (c : CombinedFigure)
deriving DecidableEq, Repr

/-- Python exceptions `plot_column` can raise. -/
inductive PlotError where
  | valueError (msg : String)
  | zeroDivisionError
  | nameError (var : String)
deriving DecidableEq, Repr

/-- Either the structural figure of a successful call or the exception
raised. -/
inductive PlotResult where
  | ok (o : PlotOutput)
  | error (e : PlotError)
deriving DecidableEq, Repr

/-- Observable effects of one `plot_column` call: the warning messages
logged, and either the structural figure or the exception raised. -/
structure PlotTrace where
  warnings : List String
  result : PlotResult
deriving DecidableEq, Repr

/-- The literal message of the missing-column `ValueError`. -/
def missingColumnMessage : String :=
  "DataFrame must have 'datetime' and 'symbol' columns"

/-- The warning logged when switching to the subplot view. -/
def warningMessage (n : Nat) : String :=
  s!"Large number of symbols ({n}). Switching to subplot view for better visibility."

/-- The overall figure title used by both layouts. -/
def figureTitle (column_name : String) : String :=
  s!"`{column_name}` Over Time by Symbol"

/-- Body of the grid-branch loop `for i, symbol in enumerate(symbols)`: the
panel drawn on `axes[i]` for one symbol. -/
def panelFor (df : DataFrame) (column_name : String)
    (kwargs : List (String × String)) (symbol_column datetime_column : String)
    (symbol : String) : Panel :=
  let symbol_data := matchingRows df symbol_column symbol
  { title := symbol
    xdata := symbol_data.map (fun r => Row.cell r datetime_column)
    ydata := symbol_data.map (fun r => Row.cell r column_name)
    kwargs := kwargs
    xlabel := "Date"
    ylabel := column_name
    gridOn := true
    tickRot := 45 }

/-- Body of the combined-branch loop `for symbol in symbols`: the labeled
line drawn for one symbol. -/
def lineFor (df : DataFrame) (column_name : String)
    (kwargs : List (String × String)) (symbol_column datetime_column : String)
    (symbol : String) : Line :=
  let symbol_data := matchingRows df symbol_column symbol
  { label := symbol
    xdata := symbol_data.map (fun r => Row.cell r datetime_column)
    ydata := symbol_data.map (fun r => Row.cell r column_name)
    kwargs := kwargs }

/-- The grid (subplot) figure built by the `if len(symbols) > subplot_threshold`
branch, lines 44–72 of the source: `n_cols = min(3, n_symbols)`,
`n_rows = (n_symbols + n_cols - 1) // n_cols`, the flattened axes list
(a single-element list when `n_symbols <= 1`), one panel per symbol drawn by
the loop, and the hide-unused-panels step driven by the leaked final loop
index `i = n_symbols - 1` (`range(i+1, len(axes))`). Only evaluated when
`n_cols != 0` and the loop ran at least once. -/
def gridFigure (df : DataFrame) (column_name : String)
    (kwargs : List (String × String))
    (symbol_column datetime_column : String) : GridFigure :=
  let symbols := symbolsOf df symbol_column
  let n_symbols := symbols.length
  let n_cols := min 3 n_symbols
  let n_rows := (n_symbols + n_cols - 1) / n_cols
  let axesLen := if n_symbols > 1 then n_rows * n_cols else 1
  let lastI := n_symbols - 1
  { nRows := n_rows
    nCols := n_cols
    axesLen := axesLen
    panels := symbols.map
      (panelFor df column_name kwargs symbol_column datetime_column)
    hidden := (List.range axesLen).filter (fun j => lastI + 1 ≤ j)
    suptitle := figureTitle column_name }

/-- The combined figure built by the `else` branch, lines 74–95 of the
source: one labeled line per symbol on shared axes, title, axis labels,
background grid, legend outside the axes, 45° tick rotation. -/
def combinedFigure (df : DataFrame) (column_name : String)
    (kwargs : List (String × String))
    (symbol_column datetime_column : String) : CombinedFigure :=
  let lines := (symbolsOf df symbol_column).map
    (lineFor df column_name kwargs symbol_column datetime_column)
  { lines := lines
    title := figureTitle column_name
    xlabel := "Date", ylabel := column_name
    gridOn := true
    legendLabels := lines.map Line.label
    legendOutside := true
    tickRot := 45 }

/-- Shallow embedding of `plot_column`. Mirrors the source's control flow:
column check raising `ValueError`, kwargs default, unique symbols, threshold
branch. In the grid branch: the warning is logged first; then computing
`n_rows = (n_symbols + n_cols - 1) // n_cols` raises `ZeroDivisionError`
when `n_cols = min(3, n_symbols)` is zero; the hide-unused-panels step
raises `NameError` for the leaked loop variable `i` if the loop body never
ran (`n_symbols = 0` — dead in practice, since `n_cols` is zero then too);
otherwise the grid figure is produced. The combined branch always succeeds. -/
def plot_column (df : DataFrame) (column_name : String)
    (plot_kwargs : Option (List (String × String))) (subplot_threshold : Int)
    (symbol_column : String) (datetime_column : String) : PlotTrace :=
  if datetime_column ∉ df.cols ∨ symbol_column ∉ df.cols then
    { warnings := [], result := .error (.valueError missingColumnMessage) }
  else
    let kwargs := plot_kwargs.getD []
    let symbols := symbolsOf df symbol_column
    if (symbols.length : Int) > subplot_threshold then
      let warnings := [warningMessage symbols.length]
      if min 3 symbols.length = 0 then
        { warnings := warnings, result := .error .zeroDivisionError }
      else if symbols.length = 0 then
        { warnings := warnings, result := .error (.nameError "i") }
      else
        { warnings := warnings
          result := .ok (.grid
            (gridFigure df column_name kwargs symbol_column datetime_column)) }
    else
      { warnings := []
        result := .ok (.combined
          (combinedFigure df column_name kwargs symbol_column datetime_column)) }

/-- Modelled from the spec: the hidden-panel index range computed explicitly
from the group count `g` and the grid dimensions, `[g, rows * cols)`. -/
def explicitHiddenRange (g rows cols : Nat) : List Nat :=
  (List.range (rows * cols)).filter (fun j => g ≤ j)

/-! ### Concrete datasets used to exercise the claims -/

/-- A dataset lacking the default `datetime` column. -/
def dfNoTime : DataFrame :=
  { cols := ["symbol", "price"]
    rows := [[("symbol", "AAPL"), ("price", "1")]] }

/-- Scenario A: two symbols, interleaved rows. -/
def dfAB : DataFrame :=
  { cols := ["datetime", "symbol", "price"]
    rows := [[("datetime", "d1"), ("symbol", "AAPL"), ("price", "1")],
             [("datetime", "d2"), ("symbol", "MSFT"), ("price", "2")],
             [("datetime", "d3"), ("symbol", "AAPL"), ("price", "3")]] }

/-- Five distinct symbols: a 2 × 3 grid with one leftover slot to hide. -/
def df5 : DataFrame :=
  { cols := ["datetime", "symbol", "price"]
    rows := [[("datetime", "d"), ("symbol", "A"), ("price", "1")],
             [("datetime", "d"), ("symbol", "B"), ("price", "2")],
             [("datetime", "d"), ("symbol", "C"), ("price", "3")],
             [("datetime", "d"), ("symbol", "D"), ("price", "4")],
             [("datetime", "d"), ("symbol", "E"), ("price", "5")]] }

/-- Scenario B: twelve distinct symbols. -/
def df12 : DataFrame :=
  { cols := ["datetime", "symbol", "price"]
    rows := [[("datetime", "d"), ("symbol", "A"), ("price", "1")],
             [("datetime", "d"), ("symbol", "B"), ("price", "1")],
             [("datetime", "d"), ("symbol", "C"), ("price", "1")],
             [("datetime", "d"), ("symbol", "D"), ("price", "1")],
             [("datetime", "d"), ("symbol", "E"), ("price", "1")],
             [("datetime", "d"), ("symbol", "F"), ("price", "1")],
             [("datetime", "d"), ("symbol", "G"), ("price", "1")],
             [("datetime", "d"), ("symbol", "H"), ("price", "1")],
             [("datetime", "d"), ("symbol", "I"), ("price", "1")],
             [("datetime", "d"), ("symbol", "J"), ("price", "1")],
             [("datetime", "d"), ("symbol", "K"), ("price", "1")],
             [("datetime", "d"), ("symbol", "L"), ("price", "1")]] }

/-- Both required columns present, but no rows — hence zero group values. -/
def dfEmpty : DataFrame :=
  { cols := ["datetime", "symbol"], rows := [] }

/-! ### Lemmas about `uniqueStable` (the model of `pandas.unique`) -/

theorem mem_uniqueStable {a : String} : ∀ {l : List String},
    a ∈ uniqueStable l ↔ a ∈ l := by
  intro l
  induction l with
  | nil => simp [uniqueStable]
  | cons x xs ih =>
    simp only [uniqueStable, List.mem_cons, List.mem_filter, bne_iff_ne]
    constructor
    · rintro (rfl | ⟨h, _⟩)
      · exact .inl rfl
      · exact .inr (ih.mp h)
    · rintro (rfl | h)
      · exact .inl rfl
      · by_cases hx : a = x
        · exact .inl hx
        · exact .inr ⟨ih.mpr h, hx⟩

theorem nodup_uniqueStable : ∀ (l : List String), (uniqueStable l).Nodup := by
  intro l
  induction l with
  | nil => simp [uniqueStable]
  | cons x xs ih =>
    refine List.Nodup.cons ?_ (ih.filter _)
    simp [List.mem_filter]

/-- `uniqueStable` lists values in first-encountered order: the indices of
their first occurrences in the original list are strictly increasing. -/
theorem pairwise_indexOf_uniqueStable : ∀ (l : List String),
    (uniqueStable l).Pairwise (fun a b => l.indexOf a < l.indexOf b) := by
  intro l
  induction l with
  | nil => simp [uniqueStable]
  | cons x xs ih =>
    refine List.Pairwise.cons ?_ ?_
    · intro b hb
      have hbx : b ≠ x := by
        have := (List.mem_filter.mp hb).2
        simpa [bne_iff_ne] using this
      rw [List.indexOf_cons_self, List.indexOf_cons_ne _ hbx.symm]
      exact Nat.succ_pos _
    · have h1 : ((uniqueStable xs).filter (fun y => y != x)).Pairwise
          (fun a b => xs.indexOf a < xs.indexOf b) :=
        List.Pairwise.sublist (List.filter_sublist _) ih
      refine h1.imp_of_mem ?_
      intro a b ha hb hab
      have hax : a ≠ x := by
        have := (List.mem_filter.mp ha).2
        simpa [bne_iff_ne] using this
      have hbx : b ≠ x := by
        have := (List.mem_filter.mp hb).2
        simpa [bne_iff_ne] using this
      rw [List.indexOf_cons_ne _ hax.symm, List.indexOf_cons_ne _ hbx.symm]
      exact Nat.succ_lt_succ hab

/-! ### Unfolding lemmas for the branches of `plot_column` -/

theorem plot_column_of_missing (df : DataFrame) (cn : String)
    (kw : Option (List (String × String))) (T : Int) (sc dc : String)
    (h : dc ∉ df.cols ∨ sc ∉ df.cols) :
    plot_column df cn kw T sc dc =
      { warnings := [], result := .error (.valueError missingColumnMessage) } := by
  unfold plot_column
  rw [if_pos h]

theorem plot_column_of_le (df : DataFrame) (cn : String)
    (kw : Option (List (String × String))) (T : Int) (sc dc : String)
    (hdc : dc ∈ df.cols) (hsc : sc ∈ df.cols)
    (hle : ((symbolsOf df sc).length : Int) ≤ T) :
    plot_column df cn kw T sc dc =
      { warnings := []
        result := .ok (.combined (combinedFigure df cn (kw.getD []) sc dc)) } := by
  have h1 : ¬(dc ∉ df.cols ∨ sc ∉ df.cols) := by
    push_neg
    exact ⟨hdc, hsc⟩
  have h2 : ¬((symbolsOf df sc).length : Int) > T := not_lt.mpr hle
  simp only [plot_column, if_neg h1, if_neg h2]

theorem plot_column_of_gt (df : DataFrame) (cn : String)
    (kw : Option (List (String × String))) (T : Int) (sc dc : String)
    (hdc : dc ∈ df.cols) (hsc : sc ∈ df.cols)
    (hgt : T < ((symbolsOf df sc).length : Int))
    (hpos : 0 < (symbolsOf df sc).length) :
    plot_column df cn kw T sc dc =
      { warnings := [warningMessage (symbolsOf df sc).length]
        result := .ok (.grid (gridFigure df cn (kw.getD []) sc dc)) } := by
  have h1 : ¬(dc ∉ df.cols ∨ sc ∉ df.cols) := by
    push_neg
    exact ⟨hdc, hsc⟩
  have h3 : ¬(min 3 (symbolsOf df sc).length = 0) := by
    omega
  have h4 : ¬((symbolsOf df sc).length = 0) := by omega
  simp only [plot_column, if_neg h1, if_pos hgt, if_neg h3, if_neg h4]

theorem plot_column_of_gt_empty (df : DataFrame) (cn : String)
    (kw : Option (List (String × String))) (T : Int) (sc dc : String)
    (hdc : dc ∈ df.cols) (hsc : sc ∈ df.cols)
    (hgt : T < ((symbolsOf df sc).length : Int))
    (hzero : (symbolsOf df sc).length = 0) :
    plot_column df cn kw T sc dc =
      { warnings := [warningMessage (symbolsOf df sc).length]
        result := .error .zeroDivisionError } := by
  have h1 : ¬(dc ∉ df.cols ∨ sc ∉ df.cols) := by
    push_neg
    exact ⟨hdc, hsc⟩
  have h3 : min 3 (symbolsOf df sc).length = 0 := by omega
  simp only [plot_column, if_neg h1, if_pos hgt, if_pos h3]

/-! ### Inversion lemmas: which branch produced a given result -/

theorem combined_result_inv (df : DataFrame) (cn : String)
    (kw : Option (List (String × String))) (T : Int) (sc dc : String)
    (c : CombinedFigure) (hdc : dc ∈ df.cols) (hsc : sc ∈ df.cols)
    (hc : (plot_column df cn kw T sc dc).result = .ok (.combined c)) :
    c = combinedFigure df cn (kw.getD []) sc dc ∧
    ((symbolsOf df sc).length : Int) ≤ T := by
  rcases le_or_lt ((symbolsOf df sc).length : Int) T with hle | hgt
  · rw [plot_column_of_le df cn kw T sc dc hdc hsc hle] at hc
    simp only [PlotResult.ok.injEq, PlotOutput.combined.injEq] at hc
    exact ⟨hc.symm, hle⟩
  · rcases Nat.eq_zero_or_pos (symbolsOf df sc).length with hz | hp
    · rw [plot_column_of_gt_empty df cn kw T sc dc hdc hsc hgt hz] at hc
      simp at hc
    · rw [plot_column_of_gt df cn kw T sc dc hdc hsc hgt hp] at hc
      simp at hc

theorem grid_result_inv (df : DataFrame) (cn : String)
    (kw : Option (List (String × String))) (T : Int) (sc dc : String)
    (g : GridFigure) (hdc : dc ∈ df.cols) (hsc : sc ∈ df.cols)
    (hg : (plot_column df cn kw T sc dc).result = .ok (.grid g)) :
    g = gridFigure df cn (kw.getD []) sc dc ∧
    T < ((symbolsOf df sc).length : Int) ∧ 0 < (symbolsOf df sc).length := by
  rcases le_or_lt ((symbolsOf df sc).length : Int) T with hle | hgt
  · rw [plot_column_of_le df cn kw T sc dc hdc hsc hle] at hg
    simp at hg
  · rcases Nat.eq_zero_or_pos (symbolsOf df sc).length with hz | hp
    · rw [plot_column_of_gt_empty df cn kw T sc dc hdc hsc hgt hz] at hg
      simp at hg
    · rw [plot_column_of_gt df cn kw T sc dc hdc hsc hgt hp] at hg
      simp only [PlotResult.ok.injEq, PlotOutput.grid.injEq] at hg
      exact ⟨hg.symm, hgt, hp⟩

/-! ### Structural facts about the two figure constructions -/

theorem combinedFigure_labels (df : DataFrame) (cn : String)
    (kwargs : List (String × String)) (sc dc : String) :
    (combinedFigure df cn kwargs sc dc).lines.map Line.label =
      symbolsOf df sc := by
  unfold combinedFigure
  simp only [List.map_map]
  have h : (Line.label ∘ lineFor df cn kwargs sc dc) = id := by
    funext s
    rfl
  rw [h, List.map_id]

theorem gridFigure_titles (df : DataFrame) (cn : String)
    (kwargs : List (String × String)) (sc dc : String) :
    (gridFigure df cn kwargs sc dc).panels.map Panel.title =
      symbolsOf df sc := by
  unfold gridFigure
  simp only [List.map_map]
  have h : (Panel.title ∘ panelFor df cn kwargs sc dc) = id := by
    funext s
    rfl
  rw [h, List.map_id]

theorem gridFigure_axesLen (df : DataFrame) (cn : String)
    (kwargs : List (String × String)) (sc dc : String)
    (hp : 0 < (symbolsOf df sc).length) :
    (gridFigure df cn kwargs sc dc).axesLen =
      (gridFigure df cn kwargs sc dc).nRows *
        (gridFigure df cn kwargs sc dc).nCols := by
  unfold gridFigure
  simp only []
  by_cases h : (symbolsOf df sc).length > 1
  · rw [if_pos h]
  · have hG1 : (symbolsOf df sc).length = 1 := by omega
    rw [if_neg h, hG1]
    decide

theorem gridFigure_hidden (df : DataFrame) (cn : String)
    (kwargs : List (String × String)) (sc dc : String)
    (hp : 0 < (symbolsOf df sc).length) :
    (gridFigure df cn kwargs sc dc).hidden =
      (List.range (gridFigure df cn kwargs sc dc).axesLen).filter
        (fun j => (symbolsOf df sc).length ≤ j) := by
  unfold gridFigure
  simp only []
  congr 1
  funext j
  have h2 : (symbolsOf df sc).length - 1 + 1 = (symbolsOf df sc).length := by
    omega
  rw [h2]

/-! ### The claims -/

/-- Claim C1: for every dataset in which the configured time column or the
configured group column is absent from the dataset's columns, the call fails
with the missing-column `ValueError` (the spec's `MissingColumnError`), and
the trace shows nothing else happened: no warning was logged and no figure
was produced — the check precedes any drawing and any other work. -/
theorem missing_column_fails_before_drawing (df : DataFrame) (cn : String)
    (kw : Option (List (String × String))) (T : Int) (sc dc : String)
    (h : dc ∉ df.cols ∨ sc ∉ df.cols) :
    plot_column df cn kw T sc dc =
      { warnings := []
        result := .error (.valueError missingColumnMessage) } :=
  plot_column_of_missing df cn kw T sc dc h

theorem missing_column_fails_before_drawing_witness :
    ("datetime" ∉ dfNoTime.cols ∨ "symbol" ∉ dfNoTime.cols) ∧
    plot_column dfNoTime "price" none 10 "symbol" "datetime" =
      { warnings := []
        result := .error (.valueError missingColumnMessage) } :=
  ⟨by decide,
   missing_column_fails_before_drawing dfNoTime "price" none 10 "symbol"
     "datetime" (by decide)⟩

/-- Claim C2: with the required columns present and `G` the number of
distinct group values, a combined figure is produced iff `G ≤ T`, a grid
figure is produced iff `G > T` (and at least one group exists to draw), and
the grid branch is entered — witnessed by its warning — iff `G > T`
strictly. In particular at `G = T` the combined layout is used. -/
theorem layout_selection_threshold (df : DataFrame) (cn : String)
    (kw : Option (List (String × String))) (T : Int) (sc dc : String)
    (hdc : dc ∈ df.cols) (hsc : sc ∈ df.cols) :
    ((∃ c, (plot_column df cn kw T sc dc).result = .ok (.combined c)) ↔
        ((symbolsOf df sc).length : Int) ≤ T) ∧
    ((∃ g, (plot_column df cn kw T sc dc).result = .ok (.grid g)) ↔
        (T < ((symbolsOf df sc).length : Int) ∧
          0 < (symbolsOf df sc).length)) ∧
    ((plot_column df cn kw T sc dc).warnings ≠ [] ↔
        T < ((symbolsOf df sc).length : Int)) := by
  rcases le_or_lt ((symbolsOf df sc).length : Int) T with hle | hgt
  · rw [plot_column_of_le df cn kw T sc dc hdc hsc hle]
    refine ⟨?_, ?_, ?_⟩
    · simp [hle]
    · simp [not_lt.mpr hle]
    · simp [not_lt.mpr hle]
  · rcases Nat.eq_zero_or_pos (symbolsOf df sc).length with hz | hp
    · rw [plot_column_of_gt_empty df cn kw T sc dc hdc hsc hgt hz]
      refine ⟨?_, ?_, ?_⟩
      · simp only [hz] at hgt ⊢
        simp
        omega
      · simp [hz]
      · simp [hgt]
    · rw [plot_column_of_gt df cn kw T sc dc hdc hsc hgt hp]
      refine ⟨?_, ?_, ?_⟩
      · simp [not_le.mpr hgt]
      · simp [hgt, hp]
      · simp [hgt]

theorem layout_selection_threshold_witness :
    ("datetime" ∈ dfAB.cols) ∧ ("symbol" ∈ dfAB.cols) ∧
    (symbolsOf dfAB "symbol").length = 2 ∧
    (((∃ c, (plot_column dfAB "price" none 2 "symbol" "datetime").result =
          .ok (.combined c)) ↔
        ((symbolsOf dfAB "symbol").length : Int) ≤ 2) ∧
    ((∃ g, (plot_column dfAB "price" none 2 "symbol" "datetime").result =
          .ok (.grid g)) ↔
        ((2 : Int) < ((symbolsOf dfAB "symbol").length : Int) ∧
          0 < (symbolsOf dfAB "symbol").length)) ∧
    ((plot_column dfAB "price" none 2 "symbol" "datetime").warnings ≠ [] ↔
        (2 : Int) < ((symbolsOf dfAB "symbol").length : Int))) :=
  ⟨by decide, by decide, by decide,
   layout_selection_threshold dfAB "price" none 2 "symbol" "datetime"
     (by decide) (by decide)⟩

/-- Claim C6: under the column precondition, a warning is logged iff the
grid branch is selected (iff the number of distinct group values strictly
exceeds the threshold), and the warning text reports that group count; the
combined layout logs nothing. -/
theorem warning_iff_grid_selected (df : DataFrame) (cn : String)
    (kw : Option (List (String × String))) (T : Int) (sc dc : String)
    (hdc : dc ∈ df.cols) (hsc : sc ∈ df.cols) :
    ((plot_column df cn kw T sc dc).warnings ≠ [] ↔
        T < ((symbolsOf df sc).length : Int)) ∧
    (T < ((symbolsOf df sc).length : Int) →
      (plot_column df cn kw T sc dc).warnings =
        [warningMessage (symbolsOf df sc).length]) := by
  rcases le_or_lt ((symbolsOf df sc).length : Int) T with hle | hgt
  · rw [plot_column_of_le df cn kw T sc dc hdc hsc hle]
    exact ⟨by simp [not_lt.mpr hle], fun h => absurd h (not_lt.mpr hle)⟩
  · rcases Nat.eq_zero_or_pos (symbolsOf df sc).length with hz | hp
    · rw [plot_column_of_gt_empty df cn kw T sc dc hdc hsc hgt hz]
      exact ⟨by simp [hgt], fun _ => rfl⟩
    · rw [plot_column_of_gt df cn kw T sc dc hdc hsc hgt hp]
      exact ⟨by simp [hgt], fun _ => rfl⟩

theorem warning_iff_grid_selected_witness :
    ("datetime" ∈ df12.cols) ∧ ("symbol" ∈ df12.cols) ∧
    (symbolsOf df12 "symbol").length = 12 ∧
    (plot_column df12 "price" none 10 "symbol" "datetime").warnings =
      ["Large number of symbols (12). Switching to subplot view for better visibility."] ∧
    (((plot_column df12 "price" none 10 "symbol" "datetime").warnings ≠ [] ↔
        (10 : Int) < ((symbolsOf df12 "symbol").length : Int)) ∧
    ((10 : Int) < ((symbolsOf df12 "symbol").length : Int) →
      (plot_column df12 "price" none 10 "symbol" "datetime").warnings =
        [warningMessage (symbolsOf df12 "symbol").length])) :=
  ⟨by decide, by decide, by decide, by decide,
   warning_iff_grid_selected df12 "price" none 10 "symbol" "datetime"
     (by decide) (by decide)⟩

/-- Claim C10: when the configured time or group column is missing, the
raised error's message always names the literal default columns `datetime`
and `symbol`, whatever names the caller configured; and the check itself is
on the configured names — when they are present the missing-column error is
never raised, even if columns literally named `datetime`/`symbol` are
absent. -/
theorem error_message_names_default_columns (df : DataFrame) (cn : String)
    (kw : Option (List (String × String))) (T : Int) (sc dc : String)
    (h : dc ∉ df.cols ∨ sc ∉ df.cols) :
    (plot_column df cn kw T sc dc).result =
      .error (.valueError "DataFrame must have 'datetime' and 'symbol' columns") ∧
    ∀ (df2 : DataFrame), dc ∈ df2.cols → sc ∈ df2.cols →
      ∀ s, (plot_column df2 cn kw T sc dc).result ≠ .error (.valueError s) := by
  constructor
  · rw [plot_column_of_missing df cn kw T sc dc h]
    rfl
  · intro df2 hdc hsc s
    rcases le_or_lt ((symbolsOf df2 sc).length : Int) T with hle | hgt
    · rw [plot_column_of_le df2 cn kw T sc dc hdc hsc hle]
      simp
    · rcases Nat.eq_zero_or_pos (symbolsOf df2 sc).length with hz | hp
      · rw [plot_column_of_gt_empty df2 cn kw T sc dc hdc hsc hgt hz]
        simp
      · rw [plot_column_of_gt df2 cn kw T sc dc hdc hsc hgt hp]
        simp

theorem error_message_names_default_columns_witness :
    ("ts" ∉ dfEmpty.cols ∨ "grp" ∉ dfEmpty.cols) ∧
    ((plot_column dfEmpty "price" none 10 "grp" "ts").result =
      .error (.valueError "DataFrame must have 'datetime' and 'symbol' columns") ∧
    ∀ (df2 : DataFrame), "ts" ∈ df2.cols → "grp" ∈ df2.cols →
      ∀ s, (plot_column df2 "price" none 10 "grp" "ts").result ≠
        .error (.valueError s)) :=
  ⟨by decide,
   error_message_names_default_columns dfEmpty "price" none 10 "grp" "ts"
     (by decide)⟩

/-- Claim C3: whenever a grid figure is produced for `G` distinct group
values, its column count is `min 3 G`, its row count is the ceiling of
`G / columns`, exactly `G` panels are drawn, the allocated slots number
`rows * cols`, and the hidden slots are exactly those from `G` up to
`rows * cols`. -/
theorem grid_layout_geometry (df : DataFrame) (cn : String)
    (kw : Option (List (String × String))) (T : Int) (sc dc : String)
    (g : GridFigure) (hdc : dc ∈ df.cols) (hsc : sc ∈ df.cols)
    (hg : (plot_column df cn kw T sc dc).result = .ok (.grid g)) :
    g.nCols = min 3 (symbolsOf df sc).length ∧
    g.nRows = (symbolsOf df sc).length ⌈/⌉ g.nCols ∧
    g.panels.length = (symbolsOf df sc).length ∧
    g.axesLen = g.nRows * g.nCols ∧
    (∀ j, j ∈ g.hidden ↔
      ((symbolsOf df sc).length ≤ j ∧ j < g.nRows * g.nCols)) := by
  obtain ⟨rfl, _hgt, hp⟩ := grid_result_inv df cn kw T sc dc g hdc hsc hg
  refine ⟨rfl, ?_, ?_, gridFigure_axesLen df cn (kw.getD []) sc dc hp, ?_⟩
  · rw [Nat.ceilDiv_eq_add_pred_div]
    rfl
  · unfold gridFigure
    simp
  · intro j
    rw [gridFigure_hidden df cn (kw.getD []) sc dc hp,
      gridFigure_axesLen df cn (kw.getD []) sc dc hp]
    simp [List.mem_filter, List.mem_range, and_comm]

theorem grid_layout_geometry_witness :
    ("datetime" ∈ df12.cols) ∧ ("symbol" ∈ df12.cols) ∧
    ((plot_column df12 "price" none 10 "symbol" "datetime").result =
      .ok (.grid (gridFigure df12 "price" [] "symbol" "datetime"))) ∧
    (symbolsOf df12 "symbol").length = 12 ∧
    (gridFigure df12 "price" [] "symbol" "datetime").nCols = 3 ∧
    (gridFigure df12 "price" [] "symbol" "datetime").nRows = 4 ∧
    (gridFigure df12 "price" [] "symbol" "datetime").panels.length = 12 ∧
    (gridFigure df12 "price" [] "symbol" "datetime").hidden = [] ∧
    ((gridFigure df12 "price" [] "symbol" "datetime").nCols =
        min 3 (symbolsOf df12 "symbol").length ∧
      (gridFigure df12 "price" [] "symbol" "datetime").nRows =
        (symbolsOf df12 "symbol").length ⌈/⌉
          (gridFigure df12 "price" [] "symbol" "datetime").nCols ∧
      (gridFigure df12 "price" [] "symbol" "datetime").panels.length =
        (symbolsOf df12 "symbol").length ∧
      (gridFigure df12 "price" [] "symbol" "datetime").axesLen =
        (gridFigure df12 "price" [] "symbol" "datetime").nRows *
          (gridFigure df12 "price" [] "symbol" "datetime").nCols ∧
      (∀ j, j ∈ (gridFigure df12 "price" [] "symbol" "datetime").hidden ↔
        ((symbolsOf df12 "symbol").length ≤ j ∧
          j < (gridFigure df12 "price" [] "symbol" "datetime").nRows *
            (gridFigure df12 "price" [] "symbol" "datetime").nCols))) :=
  ⟨by decide, by decide, by decide, by decide, by decide, by decide,
   by decide, by decide,
   grid_layout_geometry df12 "price" none 10 "symbol" "datetime"
     (gridFigure df12 "price" [] "symbol" "datetime")
     (by decide) (by decide) (by decide)⟩

/-- Claim C4: under the column precondition, each distinct value of the
group column labels exactly one drawn series — one line in the combined
layout, one panel in the grid layout — and the series for a value consists
of exactly the rows whose group-column cell equals that value, in row
order. -/
theorem one_series_per_group (df : DataFrame) (cn : String)
    (kw : Option (List (String × String))) (T : Int) (sc dc : String)
    (hdc : dc ∈ df.cols) (hsc : sc ∈ df.cols) :
    (∀ c, (plot_column df cn kw T sc dc).result = .ok (.combined c) →
      (∀ v, (c.lines.map Line.label).count v =
          if v ∈ columnValues df sc then 1 else 0) ∧
      (∀ L ∈ c.lines,
        L.xdata = (matchingRows df sc L.label).map (fun r => Row.cell r dc) ∧
        L.ydata = (matchingRows df sc L.label).map (fun r => Row.cell r cn))) ∧
    (∀ g, (plot_column df cn kw T sc dc).result = .ok (.grid g) →
      (∀ v, (g.panels.map Panel.title).count v =
          if v ∈ columnValues df sc then 1 else 0) ∧
      (∀ p ∈ g.panels,
        p.xdata = (matchingRows df sc p.title).map (fun r => Row.cell r dc) ∧
        p.ydata = (matchingRows df sc p.title).map (fun r => Row.cell r cn))) := by
  constructor
  · intro c hc
    obtain ⟨rfl, -⟩ := combined_result_inv df cn kw T sc dc c hdc hsc hc
    constructor
    · intro v
      have hnd : (symbolsOf df sc).Nodup := nodup_uniqueStable _
      rw [combinedFigure_labels, List.count_eq_of_nodup hnd]
      simp only [symbolsOf, mem_uniqueStable]
    · intro L hL
      have hL2 : L ∈ (symbolsOf df sc).map
          (lineFor df cn (kw.getD []) sc dc) := hL
      obtain ⟨s, -, rfl⟩ := List.mem_map.mp hL2
      exact ⟨rfl, rfl⟩
  · intro g hg
    obtain ⟨rfl, -, -⟩ := grid_result_inv df cn kw T sc dc g hdc hsc hg
    constructor
    · intro v
      have hnd : (symbolsOf df sc).Nodup := nodup_uniqueStable _
      rw [gridFigure_titles, List.count_eq_of_nodup hnd]
      simp only [symbolsOf, mem_uniqueStable]
    · intro p hp
      have hp2 : p ∈ (symbolsOf df sc).map
          (panelFor df cn (kw.getD []) sc dc) := hp
      obtain ⟨s, -, rfl⟩ := List.mem_map.mp hp2
      exact ⟨rfl, rfl⟩

theorem one_series_per_group_witness :
    ("datetime" ∈ dfAB.cols) ∧ ("symbol" ∈ dfAB.cols) ∧
    ((plot_column dfAB "price" none 10 "symbol" "datetime").result =
      .ok (.combined (combinedFigure dfAB "price" [] "symbol" "datetime"))) ∧
    ((combinedFigure dfAB "price" [] "symbol" "datetime").lines.map
      Line.label) = ["AAPL", "MSFT"] ∧
    ((∀ c, (plot_column dfAB "price" none 10 "symbol" "datetime").result =
        .ok (.combined c) →
      (∀ v, (c.lines.map Line.label).count v =
          if v ∈ columnValues dfAB "symbol" then 1 else 0) ∧
      (∀ L ∈ c.lines,
        L.xdata = (matchingRows dfAB "symbol" L.label).map
          (fun r => Row.cell r "datetime") ∧
        L.ydata = (matchingRows dfAB "symbol" L.label).map
          (fun r => Row.cell r "price"))) ∧
    (∀ g, (plot_column dfAB "price" none 10 "symbol" "datetime").result =
        .ok (.grid g) →
      (∀ v, (g.panels.map Panel.title).count v =
          if v ∈ columnValues dfAB "symbol" then 1 else 0) ∧
      (∀ p ∈ g.panels,
        p.xdata = (matchingRows dfAB "symbol" p.title).map
          (fun r => Row.cell r "datetime") ∧
        p.ydata = (matchingRows dfAB "symbol" p.title).map
          (fun r => Row.cell r "price")))) :=
  ⟨by decide, by decide, by decide, by decide,
   one_series_per_group dfAB "price" none 10 "symbol" "datetime"
     (by decide) (by decide)⟩

/-- Claim C5: for every grid figure actually produced (which requires at
least one group), the hidden-slot range computed by the source from the
leaked loop index — `range(i+1, len(axes))` with `i` the final loop index —
coincides with the range computed explicitly from the group count and the
grid dimensions, `[G, rows * cols)`. -/
theorem hidden_panels_leak_refines_explicit (df : DataFrame) (cn : String)
    (kw : Option (List (String × String))) (T : Int) (sc dc : String)
    (g : GridFigure) (hdc : dc ∈ df.cols) (hsc : sc ∈ df.cols)
    (hg : (plot_column df cn kw T sc dc).result = .ok (.grid g)) :
    g.hidden =
      explicitHiddenRange (symbolsOf df sc).length g.nRows g.nCols := by
  obtain ⟨rfl, -, hp⟩ := grid_result_inv df cn kw T sc dc g hdc hsc hg
  rw [gridFigure_hidden df cn (kw.getD []) sc dc hp,
    gridFigure_axesLen df cn (kw.getD []) sc dc hp]
  rfl

theorem hidden_panels_leak_refines_explicit_witness :
    ("datetime" ∈ df5.cols) ∧ ("symbol" ∈ df5.cols) ∧
    ((plot_column df5 "price" none 2 "symbol" "datetime").result =
      .ok (.grid (gridFigure df5 "price" [] "symbol" "datetime"))) ∧
    (gridFigure df5 "price" [] "symbol" "datetime").hidden = [5] ∧
    explicitHiddenRange 5 2 3 = [5] ∧
    (gridFigure df5 "price" [] "symbol" "datetime").hidden =
      explicitHiddenRange (symbolsOf df5 "symbol").length
        (gridFigure df5 "price" [] "symbol" "datetime").nRows
        (gridFigure df5 "price" [] "symbol" "datetime").nCols :=
  ⟨by decide, by decide, by decide, by decide, by decide,
   hidden_panels_leak_refines_explicit df5 "price" none 2 "symbol" "datetime"
     (gridFigure df5 "price" [] "symbol" "datetime")
     (by decide) (by decide) (by decide)⟩

/-- Claim C7: under the column precondition, both layouts draw the distinct
group values in the order their values are first encountered in the dataset
(stable, not sorted): the drawn labels/titles are exactly `symbolsOf`, which
contains each value of the group column exactly once, with first-occurrence
indices strictly increasing along the list; and in the combined layout each
series is a line labeled by its group value. -/
theorem series_drawn_in_first_encountered_order (df : DataFrame)
    (cn : String) (kw : Option (List (String × String))) (T : Int)
    (sc dc : String) (hdc : dc ∈ df.cols) (hsc : sc ∈ df.cols) :
    (∀ c, (plot_column df cn kw T sc dc).result = .ok (.combined c) →
      c.lines.map Line.label = symbolsOf df sc) ∧
    (∀ g, (plot_column df cn kw T sc dc).result = .ok (.grid g) →
      g.panels.map Panel.title = symbolsOf df sc) ∧
    (symbolsOf df sc).Nodup ∧
    (∀ v, v ∈ symbolsOf df sc ↔ v ∈ columnValues df sc) ∧
    (symbolsOf df sc).Pairwise (fun a b =>
      (columnValues df sc).indexOf a < (columnValues df sc).indexOf b) := by
  refine ⟨?_, ?_, nodup_uniqueStable _, fun v => mem_uniqueStable,
    pairwise_indexOf_uniqueStable _⟩
  · intro c hc
    obtain ⟨rfl, -⟩ := combined_result_inv df cn kw T sc dc c hdc hsc hc
    exact combinedFigure_labels df cn (kw.getD []) sc dc
  · intro g hg
    obtain ⟨rfl, -, -⟩ := grid_result_inv df cn kw T sc dc g hdc hsc hg
    exact gridFigure_titles df cn (kw.getD []) sc dc

theorem series_drawn_in_first_encountered_order_witness :
    ("datetime" ∈ dfAB.cols) ∧ ("symbol" ∈ dfAB.cols) ∧
    symbolsOf dfAB "symbol" = ["AAPL", "MSFT"] ∧
    ((∀ c, (plot_column dfAB "price" none 10 "symbol" "datetime").result =
        .ok (.combined c) →
      c.lines.map Line.label = symbolsOf dfAB "symbol") ∧
    (∀ g, (plot_column dfAB "price" none 10 "symbol" "datetime").result =
        .ok (.grid g) →
      g.panels.map Panel.title = symbolsOf dfAB "symbol") ∧
    (symbolsOf dfAB "symbol").Nodup ∧
    (∀ v, v ∈ symbolsOf dfAB "symbol" ↔
      v ∈ columnValues dfAB "symbol") ∧
    (symbolsOf dfAB "symbol").Pairwise (fun a b =>
      (columnValues dfAB "symbol").indexOf a <
        (columnValues dfAB "symbol").indexOf b)) :=
  ⟨by decide, by decide, by decide,
   series_drawn_in_first_encountered_order dfAB "price" none 10 "symbol"
     "datetime" (by decide) (by decide)⟩

/-- Claim C8: the render is deterministic in its structural output — two
calls with identical dataset, column name, options, threshold and column
names produce identical traces: the same layout choice, panels, lines,
titles, labels and warnings. -/
theorem render_deterministic (dfA dfB : DataFrame) (cnA cnB : String)
    (kwA kwB : Option (List (String × String))) (TA TB : Int)
    (scA scB dcA dcB : String)
    (h1 : dfA = dfB) (h2 : cnA = cnB) (h3 : kwA = kwB) (h4 : TA = TB)
    (h5 : scA = scB) (h6 : dcA = dcB) :
    plot_column dfA cnA kwA TA scA dcA = plot_column dfB cnB kwB TB scB dcB := by
  subst h1 h2 h3 h4 h5 h6
  rfl

theorem render_deterministic_witness :
    plot_column dfAB "price" none 10 "symbol" "datetime" =
      plot_column dfAB "price" none 10 "symbol" "datetime" :=
  render_deterministic dfAB dfAB "price" "price" none none 10 10 "symbol"
    "symbol" "datetime" "datetime" rfl rfl rfl rfl rfl rfl

/-- Claim C9 as stated is false: with both columns present, zero distinct
group values and a negative threshold, the grid branch is entered, but the
call does not fail with a `NameError` for the leaked loop variable `i` in
the hide-unused-panels step — it fails earlier, with a `ZeroDivisionError`
raised while computing the row count, because `n_cols = min(3, 0) = 0`. -/
theorem zero_groups_grid_counterexample :
    ((-1 : Int) < ((symbolsOf dfEmpty "symbol").length : Int)) ∧
    (symbolsOf dfEmpty "symbol").length = 0 ∧
    (plot_column dfEmpty "price" none (-1) "symbol" "datetime").result =
      .error .zeroDivisionError ∧
    ∀ v, (plot_column dfEmpty "price" none (-1) "symbol" "datetime").result ≠
      .error (.nameError v) := by
  refine ⟨by decide, by decide, by decide, ?_⟩
  intro v
  have h : (plot_column dfEmpty "price" none (-1) "symbol" "datetime").result =
      .error .zeroDivisionError := by decide
  rw [h]
  simp

/-- Claim C9, amended: if the grid layout is selected while the dataset has
zero distinct group values (reachable only with a negative
`subplot_threshold`), the call fails — after logging the warning — with a
`ZeroDivisionError` raised while computing the grid row count (since the
column count `min(3, 0)` is zero), before the per-group loop ever runs; the
error is not the documented missing-column error. -/
theorem zero_groups_grid_zero_division (df : DataFrame) (cn : String)
    (kw : Option (List (String × String))) (T : Int) (sc dc : String)
    (hdc : dc ∈ df.cols) (hsc : sc ∈ df.cols)
    (hzero : (symbolsOf df sc).length = 0)
    (hgt : T < ((symbolsOf df sc).length : Int)) :
    plot_column df cn kw T sc dc =
      { warnings := [warningMessage 0]
        result := .error .zeroDivisionError } ∧
    ∀ s, PlotResult.error .zeroDivisionError ≠ .error (.valueError s) := by
  refine ⟨?_, by simp⟩
  rw [plot_column_of_gt_empty df cn kw T sc dc hdc hsc hgt hzero, hzero]

theorem zero_groups_grid_zero_division_witness :
    ("datetime" ∈ dfEmpty.cols) ∧ ("symbol" ∈ dfEmpty.cols) ∧
    (symbolsOf dfEmpty "symbol").length = 0 ∧
    ((-1 : Int) < ((symbolsOf dfEmpty "symbol").length : Int)) ∧
    (plot_column dfEmpty "price" none (-1) "symbol" "datetime" =
      { warnings := [warningMessage 0]
        result := .error .zeroDivisionError } ∧
    ∀ s, PlotResult.error .zeroDivisionError ≠ .error (.valueError s)) :=
  ⟨by decide, by decide, by decide, by decide,
   zero_groups_grid_zero_division dfEmpty "price" none (-1) "symbol"
     "datetime" (by decide) (by decide) (by decide) (by decide)⟩

end AcmePlot
